import Mathlib

/-!
Shallow embedding of the astronomical time-calculation engine of the
KosherZmanim / TemporalZmanim repository (source: src/AstronomicalCalendar.ts),
together with theorems settling the frozen claims about it.

Modelling conventions:
* JavaScript `number` values flowing through the time pipeline are modelled as
  rationals (`ℚ`); the `NaN` "no event" sentinel is modelled as `Option.none`.
* `Temporal.PlainDate` is modelled as an integer day number (days since an
  arbitrary epoch); `Temporal.ZonedDateTime` is modelled as an integer count of
  nanoseconds since that epoch (the `withTimeZone` re-expression at the end of
  `getDateFromTime` preserves the instant, so only the instant is modelled).
* Thrown JavaScript errors are modelled with `Except JsError`.
* Reference identity / aliasing of mutable objects (needed for `clone` and
  `equals`) is modelled with an explicit heap: a list of `GeoLocation` values
  indexed by natural-number references.
-/

namespace KosherZmanim

/-- Errors thrown by the modelled code: `IllegalArgumentException` from
`polyfills/errors.ts`, and the runtime `TypeError` raised by a member access on
`null`/`undefined`. -/
inductive JsError where
  | illegalArgument
  | typeError
deriving DecidableEq, Repr

/-- SolarEvent enum from AstronomicalCalendar.ts. -/
inductive SolarEvent where
  | SUNRISE
  | SUNSET
  | NOON
  | MIDNIGHT
deriving DecidableEq, Repr

/-- Modelled from the spec: the GeoLocation value object (its source file
`src/util/GeoLocation.ts` is not part of the provided sources). Per spec section 3
it holds latitude, longitude, elevation, an optional name, and a timezone
identifier together with its resolved raw UTC offset (here in nanoseconds). -/
structure GeoLocation where
  locationName : Option String
  latitude : ℚ
  longitude : ℚ
  elevation : ℚ
  timeZone : String
  rawOffset : ℤ
deriving DecidableEq, Repr

instance : Inhabited GeoLocation := ⟨⟨none, 0, 0, 0, "", 0⟩⟩

/-- Nanoseconds in a day. -/
def nanosPerDay : ℤ := 86400000000000

/-- HOUR_NANOS constant of AstronomicalCalendar: nanoseconds in an hour. -/
def HOUR_NANOS : ℤ := 3600000000000

/-- JavaScript Math.trunc on an exact rational: truncation toward zero (for a
negative argument this is the negated floor of the negation). -/
def ratTrunc (q : ℚ) : ℤ := if q < 0 then -⌊-q⌋ else ⌊q⌋

/-- Modelled from the spec: `GeoLocation.getAntimeridianAdjustment` (source file
missing). Spec section 4.1: compare the longitude-implied nominal UTC offset
(longitude / 15 hours) with the timezone's resolved raw offset and return plus
or minus one day when they disagree by more than half a day. -/
def GeoLocation.getAntimeridianAdjustment (g : GeoLocation) : ℤ :=
  let diff : ℚ := (g.rawOffset : ℚ) / (HOUR_NANOS : ℚ) - g.longitude / 15
  if 12 < diff then 1 else if diff < -12 then -1 else 0

/-- Modelled from the spec: `GeoLocation.getLocalMeanTimeOffset` (source file
missing). Spec section 4.1: the signed nanosecond correction equal to
(longitude minus the nearest multiple of 15 degrees) times 4 minutes per degree. -/
def GeoLocation.getLocalMeanTimeOffset (g : GeoLocation) : ℤ :=
  ratTrunc ((g.longitude - 15 * (round (g.longitude / 15) : ℤ)) * 4 * 60 * 1000000000)

/-- The abstract AstronomicalCalculator contract (its source file
`src/util/AstronomicalCalculator.ts` is not part of the provided sources;
modelled from the spec, section 4.2): date, location, zenith and an
elevation-adjustment flag map to a fractional UTC hour, `none` standing for the
NaN "no event on this day" sentinel. -/
structure AstronomicalCalculator where
  getUTCSunrise : ℤ → GeoLocation → ℚ → Bool → Option ℚ
  getUTCSunset : ℤ → GeoLocation → ℚ → Bool → Option ℚ
  getUTCNoon : ℤ → GeoLocation → Option ℚ

/-- The state of an AstronomicalCalendar instance: a date, a GeoLocation and a
calculator (value-level model, used for the purely computational claims). -/
structure AstronomicalCalendar where
  date : ℤ
  geoLocation : GeoLocation
  astronomicalCalculator : AstronomicalCalculator

namespace AstronomicalCalendar

/-- GEOMETRIC_ZENITH constant: 90 degrees. -/
def GEOMETRIC_ZENITH : ℚ := 90

/-- getAdjustedDate: the stored date plus the GeoLocation's antimeridian
adjustment. -/
def getAdjustedDate (c : AstronomicalCalendar) : ℤ :=
  c.date + c.geoLocation.getAntimeridianAdjustment

/-- getUTCSunrise: elevation-adjusted sunrise query to the calculator. -/
def getUTCSunrise (c : AstronomicalCalendar) (zenith : ℚ) : Option ℚ :=
  c.astronomicalCalculator.getUTCSunrise c.getAdjustedDate c.geoLocation zenith true

/-- getUTCSeaLevelSunrise: sea-level sunrise query to the calculator. -/
def getUTCSeaLevelSunrise (c : AstronomicalCalendar) (zenith : ℚ) : Option ℚ :=
  c.astronomicalCalculator.getUTCSunrise c.getAdjustedDate c.geoLocation zenith false

/-- getUTCSunset: elevation-adjusted sunset query to the calculator. -/
def getUTCSunset (c : AstronomicalCalendar) (zenith : ℚ) : Option ℚ :=
  c.astronomicalCalculator.getUTCSunset c.getAdjustedDate c.geoLocation zenith true

/-- getUTCSeaLevelSunset: sea-level sunset query to the calculator. -/
def getUTCSeaLevelSunset (c : AstronomicalCalendar) (zenith : ℚ) : Option ℚ :=
  c.astronomicalCalculator.getUTCSunset c.getAdjustedDate c.geoLocation zenith false

/-- Clamp an integer into an interval, modelling the `overflow: "constrain"`
behaviour of `Temporal.ZonedDateTime.with`. -/
def clampI (lo hi v : ℤ) : ℤ := max lo (min hi v)

/-- The wall-clock components produced by the decomposition loop inside
`getDateFromTime`. -/
structure TimeParts where
  hours : ℤ
  minutes : ℤ
  seconds : ℤ
  milliseconds : ℤ
  microseconds : ℤ
  nanoseconds : ℤ
deriving DecidableEq, Repr

/-- The successive truncations of `getDateFromTime`: hours, minutes, seconds,
milliseconds, microseconds and the final nanosecond remainder of the fractional
hour `time`. -/
def decomposeTime (time : ℚ) : TimeParts :=
  let hours : ℤ := ratTrunc time
  let t1 : ℚ := (time - hours) * 60
  let minutes : ℤ := ratTrunc t1
  let t2 : ℚ := (t1 - minutes) * 60
  let seconds : ℤ := ratTrunc t2
  let t3 : ℚ := (t2 - seconds) * 1000
  let milliseconds : ℤ := ratTrunc t3
  let t4 : ℚ := (t3 - milliseconds) * 1000
  let microseconds : ℤ := ratTrunc t4
  let t5 : ℚ := t4 - microseconds
  ⟨hours, minutes, seconds, milliseconds, microseconds, ratTrunc (t5 * 1000)⟩

/-- The date-rollover decision of `getDateFromTime`: the working UTC day after
the sunrise / sunset / lower-transit adjustment, together with the wall-clock
time of day in nanoseconds (each component clamped as `Temporal`'s constraining
`with` does). -/
def dateFromTimeParts (c : AstronomicalCalendar) (time : ℚ) (solarEvent : SolarEvent) :
    ℤ × ℤ :=
  let p := decomposeTime time
  let adjustedDate := c.getAdjustedDate
  let localTimeHours : ℤ := ratTrunc (c.geoLocation.longitude / 15)
  let day : ℤ :=
    if solarEvent = SolarEvent.SUNRISE ∧ 18 < localTimeHours + p.hours then adjustedDate - 1
    else if solarEvent = SolarEvent.SUNSET ∧ localTimeHours + p.hours < 6 then adjustedDate + 1
    else if solarEvent = SolarEvent.MIDNIGHT ∧ 12 < localTimeHours + p.hours then adjustedDate - 1
    else adjustedDate
  let ns : ℤ :=
    clampI 0 23 p.hours * 3600000000000 + clampI 0 59 p.minutes * 60000000000
      + clampI 0 59 p.seconds * 1000000000 + clampI 0 999 p.milliseconds * 1000000
      + clampI 0 999 p.microseconds * 1000 + clampI 0 999 p.nanoseconds
  (day, ns)

/-- getDateFromTime: `none` (the NaN input) maps to `none`; otherwise the
instant assembled from the rolled-over day and the wall-clock components. -/
def getDateFromTime (c : AstronomicalCalendar) (time : Option ℚ) (solarEvent : SolarEvent) :
    Option ℤ :=
  match time with
  | none => none
  | some t =>
    let p := dateFromTimeParts c t solarEvent
    some (p.1 * nanosPerDay + p.2)

/-- getSunrise: null when the calculator returns the NaN sentinel. -/
def getSunrise (c : AstronomicalCalendar) : Option ℤ :=
  match c.getUTCSunrise GEOMETRIC_ZENITH with
  | none => none
  | some t => c.getDateFromTime (some t) SolarEvent.SUNRISE

/-- getSeaLevelSunrise. -/
def getSeaLevelSunrise (c : AstronomicalCalendar) : Option ℤ :=
  match c.getUTCSeaLevelSunrise GEOMETRIC_ZENITH with
  | none => none
  | some t => c.getDateFromTime (some t) SolarEvent.SUNRISE

/-- getSunset. -/
def getSunset (c : AstronomicalCalendar) : Option ℤ :=
  match c.getUTCSunset GEOMETRIC_ZENITH with
  | none => none
  | some t => c.getDateFromTime (some t) SolarEvent.SUNSET

/-- getSeaLevelSunset. -/
def getSeaLevelSunset (c : AstronomicalCalendar) : Option ℤ :=
  match c.getUTCSeaLevelSunset GEOMETRIC_ZENITH with
  | none => none
  | some t => c.getDateFromTime (some t) SolarEvent.SUNSET

/-- getSunriseOffsetByDegrees. -/
def getSunriseOffsetByDegrees (c : AstronomicalCalendar) (offsetZenith : ℚ) : Option ℤ :=
  match c.getUTCSunrise offsetZenith with
  | none => none
  | some t => c.getDateFromTime (some t) SolarEvent.SUNRISE

/-- getSunsetOffsetByDegrees. -/
def getSunsetOffsetByDegrees (c : AstronomicalCalendar) (offsetZenith : ℚ) : Option ℤ :=
  match c.getUTCSunset offsetZenith with
  | none => none
  | some t => c.getDateFromTime (some t) SolarEvent.SUNSET

/-- getTemporalHour applied to a pair of supplied bounds: `undefined` (none)
when either bound is null, otherwise the nanosecond span divided by 12 and
truncated toward zero (JavaScript `Math.trunc` of the float division). -/
def getTemporalHour2 (startOfday endOfDay : Option ℤ) : Option ℤ :=
  match startOfday, endOfDay with
  | some s, some e => some ((e - s).tdiv 12)
  | _, _ => none

/-- getTemporalHour with the default arguments: sea-level sunrise and sea-level
sunset (the TypeScript default parameter expressions). -/
def getTemporalHour (c : AstronomicalCalendar) : Option ℤ :=
  getTemporalHour2 c.getSeaLevelSunrise c.getSeaLevelSunset

/-- The no-argument path of getSunTransit: a direct UTC-noon query converted
through getDateFromTime with the NOON event. -/
def getSunTransitDirect (c : AstronomicalCalendar) : Option ℤ :=
  c.getDateFromTime
    (c.astronomicalCalculator.getUTCNoon c.getAdjustedDate c.geoLocation) SolarEvent.NOON

/-- getSunTransit with its optional bounds. A supplied start without an end
throws IllegalArgumentException; with both bounds the start is advanced by one
temporal hour six times; with no start the direct noon path is used (the end
argument is never looked at). -/
def getSunTransit (c : AstronomicalCalendar) (startOfDay endOfDay : Option ℤ) :
    Except JsError (Option ℤ) :=
  match startOfDay with
  | some s =>
    match endOfDay with
    | none => Except.error JsError.illegalArgument
    | some e =>
      let temporalHour := (getTemporalHour2 (some s) (some e)).getD 0
      Except.ok (some ((List.range 6).foldl (fun offsetTime _ => offsetTime + temporalHour) s))
  | none => Except.ok c.getSunTransitDirect

/-- getSolarMidnight: clone the calendar, advance the clone one day, and take
the midpoint between the two direct sun transits. A null transit on either day
makes the non-null assertions dereference null and raise a TypeError. -/
def getSolarMidnight (c : AstronomicalCalendar) : Except JsError (Option ℤ) :=
  let clonedCal : AstronomicalCalendar := { c with date := c.date + 1 }
  match c.getSunTransitDirect with
  | none => Except.error JsError.typeError
  | some t1 =>
    match clonedCal.getSunTransitDirect with
    | none => Except.error JsError.typeError
    | some t2 => Except.ok (some (t1 + ((t2 - t1).tdiv 2)))

/-- getLocalMeanTime: hours outside [0, 24) throw IllegalArgumentException;
otherwise the raw-offset-shifted fractional hour goes through getDateFromTime
(as a SUNRISE event) and the GeoLocation's local mean time offset is
subtracted. -/
def getLocalMeanTime (c : AstronomicalCalendar) (hours : ℚ) : Except JsError (Option ℤ) :=
  if hours < 0 ∨ 24 ≤ hours then Except.error JsError.illegalArgument
  else
    let rawOffsetHours : ℚ := (c.geoLocation.rawOffset : ℚ) / (HOUR_NANOS : ℚ)
    Except.ok ((c.getDateFromTime (some (hours - rawOffsetHours)) SolarEvent.SUNRISE).map
      (fun z => z - c.geoLocation.getLocalMeanTimeOffset))

/-- Outcome of a fuel-bounded run of a dip-search loop: a returned degrees
value, a thrown TypeError (comparison against an undefined target), or fuel
exhaustion (the loop had not returned yet). -/
inductive DipOutcome where
  | val (degrees : ℚ)
  | typeErr
  | timeout
deriving DecidableEq, Repr

/-- The incrementor of getSunriseSolarDipFromOffset: Big('0.0001'). -/
def riseIncrement : ℚ := 1 / 10000

/-- The incrementor of getSunsetSolarDipFromOffset: Big('0.001'). -/
def setIncrement : ℚ := 1 / 1000

/-- The while-condition of getSunriseSolarDipFromOffset: keep looping while the
probe is null, or while minutes is negative and the probe is before the target,
or while minutes is positive and the probe is after the target. Comparing a
non-null probe against an undefined target (null sea-level sunrise) throws. -/
def dipCondRise (minutes : ℤ) (probe target : Option ℤ) : Except JsError Bool :=
  match probe with
  | none => Except.ok true
  | some p =>
    if minutes < 0 then
      match target with
      | none => Except.error JsError.typeError
      | some t => Except.ok (p < t)
    else if 0 < minutes then
      match target with
      | none => Except.error JsError.typeError
      | some t => Except.ok (t < p)
    else Except.ok false

/-- The while-condition of getSunsetSolarDipFromOffset: the comparison
directions are reversed relative to the sunrise variant. -/
def dipCondSet (minutes : ℤ) (probe target : Option ℤ) : Except JsError Bool :=
  match probe with
  | none => Except.ok true
  | some p =>
    if 0 < minutes then
      match target with
      | none => Except.error JsError.typeError
      | some t => Except.ok (p < t)
    else if minutes < 0 then
      match target with
      | none => Except.error JsError.typeError
      | some t => Except.ok (t < p)
    else Except.ok false

/-- The loop of getSunriseSolarDipFromOffset, fuel-bounded: while the condition
holds, step `degrees` by the incrementor (added for positive minutes,
subtracted otherwise) and recompute the probe at zenith 90 + degrees. -/
def dipLoopRise (c : AstronomicalCalendar) (minutes : ℤ) (target : Option ℤ) :
    Option ℤ → ℚ → ℕ → DipOutcome
  | _, _, 0 => DipOutcome.timeout
  | probe, degrees, fuel + 1 =>
    match dipCondRise minutes probe target with
    | Except.error _ => DipOutcome.typeErr
    | Except.ok false => DipOutcome.val degrees
    | Except.ok true =>
      let degrees2 := if 0 < minutes then degrees + riseIncrement else degrees - riseIncrement
      dipLoopRise c minutes target
        (c.getSunriseOffsetByDegrees (GEOMETRIC_ZENITH + degrees2)) degrees2 fuel

/-- The loop of getSunsetSolarDipFromOffset, fuel-bounded. -/
def dipLoopSet (c : AstronomicalCalendar) (minutes : ℤ) (target : Option ℤ) :
    Option ℤ → ℚ → ℕ → DipOutcome
  | _, _, 0 => DipOutcome.timeout
  | probe, degrees, fuel + 1 =>
    match dipCondSet minutes probe target with
    | Except.error _ => DipOutcome.typeErr
    | Except.ok false => DipOutcome.val degrees
    | Except.ok true =>
      let degrees2 := if 0 < minutes then degrees + setIncrement else degrees - setIncrement
      dipLoopSet c minutes target
        (c.getSunsetOffsetByDegrees (GEOMETRIC_ZENITH + degrees2)) degrees2 fuel

/-- The target time of the sunrise dip search: sea-level sunrise minus
`minutes` minutes (undefined when sea-level sunrise is null). -/
def riseTarget (c : AstronomicalCalendar) (minutes : ℤ) : Option ℤ :=
  c.getSeaLevelSunrise.map (fun z => z - minutes * 60000000000)

/-- The target time of the sunset dip search: sea-level sunset plus `minutes`
minutes. -/
def setTarget (c : AstronomicalCalendar) (minutes : ℤ) : Option ℤ :=
  c.getSeaLevelSunset.map (fun z => z + minutes * 60000000000)

/-- getSunriseSolarDipFromOffset (fuel-bounded run of the source loop): start
at degrees = 0 with the sea-level sunrise as the first probe. -/
def getSunriseSolarDipFromOffset (c : AstronomicalCalendar) (minutes : ℤ) (fuel : ℕ) :
    DipOutcome :=
  dipLoopRise c minutes (riseTarget c minutes) c.getSeaLevelSunrise 0 fuel

/-- getSunsetSolarDipFromOffset (fuel-bounded run of the source loop). -/
def getSunsetSolarDipFromOffset (c : AstronomicalCalendar) (minutes : ℤ) (fuel : ℕ) :
    DipOutcome :=
  dipLoopSet c minutes (setTarget c minutes) c.getSeaLevelSunset 0 fuel

/-- The degrees value probed at step `n` of the sunrise dip scan: n increments
in the direction given by the sign of minutes (step 0 is the initial 0). -/
def riseDegAt (minutes : ℤ) (n : ℕ) : ℚ :=
  if 0 < minutes then n * riseIncrement else -(n * riseIncrement)

/-- The degrees value probed at step `n` of the sunset dip scan. -/
def setDegAt (minutes : ℤ) (n : ℕ) : ℚ :=
  if 0 < minutes then n * setIncrement else -(n * setIncrement)

/-- The event probed at step `n` of the sunrise dip scan: the sea-level sunrise
initially, then the elevation-adjusted sunrise at zenith 90 + degrees. -/
def riseProbeAt (c : AstronomicalCalendar) (minutes : ℤ) : ℕ → Option ℤ
  | 0 => c.getSeaLevelSunrise
  | n + 1 => c.getSunriseOffsetByDegrees (GEOMETRIC_ZENITH + riseDegAt minutes (n + 1))

/-- The event probed at step `n` of the sunset dip scan. -/
def setProbeAt (c : AstronomicalCalendar) (minutes : ℤ) : ℕ → Option ℤ
  | 0 => c.getSeaLevelSunset
  | n + 1 => c.getSunsetOffsetByDegrees (GEOMETRIC_ZENITH + setDegAt minutes (n + 1))

end AstronomicalCalendar

/-- Input accepted by AstronomicalCalendar.setDate: the declared TypeScript
parameter type `Temporal.PlainDate | Date | string | number`. -/
inductive DateInput where
  | plainDate (d : ℤ)
  | jsDate (epochMs : ℤ)
  | str (s : String)
  | num (n : ℚ)

/-- setDate: the instanceof / typeof dispatch of the source. The conversions
applied to a JavaScript Date (epoch milliseconds read in the GeoLocation's
timezone) and to a string (ISO date parse) are external Temporal library calls
and are passed in as functions. A `number` argument matches no branch, so the
calendar is returned unchanged. -/
def AstronomicalCalendar.setDate (convMs : ℤ → String → ℤ) (convStr : String → ℤ)
    (c : AstronomicalCalendar) (d : DateInput) : AstronomicalCalendar :=
  match d with
  | DateInput.plainDate d => { c with date := d }
  | DateInput.jsDate ms => { c with date := convMs ms c.geoLocation.timeZone }
  | DateInput.str s => { c with date := convStr s }
  | DateInput.num _ => c

/-- A calendar object under the reference model: the date value plus heap
references to its GeoLocation and its calculator object. -/
structure CalendarRef where
  dateR : ℤ
  geoRef : ℕ
  calcRef : ℕ
deriving DecidableEq, Repr

/-- Dereference a GeoLocation heap slot. -/
def geoAt (h : List GeoLocation) (r : ℕ) : GeoLocation := h.getD r default

/-- clone under the reference model: the source builds a new calendar with
`new AstronomicalCalendar(this.geoLocation)` and then copies the date and the
calculator reference, so the clone holds the same GeoLocation reference and the
same calculator reference as the original. -/
def cloneRef (c : CalendarRef) : CalendarRef :=
  { dateR := c.dateR, geoRef := c.geoRef, calcRef := c.calcRef }

/-- GeoLocation.setLongitude through a reference: mutate the heap slot. -/
def setLongitudeAt (h : List GeoLocation) (r : ℕ) (lng : ℚ) : List GeoLocation :=
  h.set r { geoAt h r with longitude := lng }

/-- The longitude a calendar observes through its GeoLocation reference. -/
def observedLongitude (h : List GeoLocation) (c : CalendarRef) : ℚ :=
  (geoAt h c.geoRef).longitude

/-- A JavaScript value passed to AstronomicalCalendar.equals: either an
AstronomicalCalendar instance or some other object (the instanceof test
rejects the latter). -/
inductive JsValue where
  | calendar (c : CalendarRef)
  | otherObject

/-- equals: date equality, structural GeoLocation equality through the
references, and identity (===) of the calculator references. -/
def calendarEquals (h : List GeoLocation) (c : CalendarRef) (o : JsValue) : Bool :=
  match o with
  | JsValue.calendar aCal =>
    decide (c.dateR = aCal.dateR) && decide (geoAt h c.geoRef = geoAt h aCal.geoRef)
      && decide (c.calcRef = aCal.calcRef)
  | JsValue.otherObject => false

/-- Fixture: a GeoLocation on the prime meridian with a zero raw offset. -/
def geoZero : GeoLocation := ⟨none, 0, 0, 0, "UTC", 0⟩

/-- Fixture: a GeoLocation at longitude -74 degrees (eastern United States)
with the -5 hour raw offset of America/New_York. -/
def geoNeg74 : GeoLocation := ⟨none, 40, -74, 0, "America/New_York", -18000000000000⟩

/-- Fixture: the Lakewood NJ GeoLocation of the library documentation. -/
def geoLakewood : GeoLocation :=
  ⟨some "Lakewood, NJ", 400828 / 10000, -742094 / 10000, 20, "America/New_York",
    -18000000000000⟩

/-- Fixture: a calculator for which no queried solar event exists on the
requested day (every query yields the NaN sentinel), as happens at deep polar
latitudes. Modelled from the spec: the calculator contract (section 4.2) allows
NaN for any query the sun does not satisfy that day. -/
def calcNone : AstronomicalCalculator :=
  ⟨fun _ _ _ _ => none, fun _ _ _ _ => none, fun _ _ => none⟩

/-- Fixture: a calculator answering every sunrise query with 6:00 UTC, every
sunset query with 18:00 UTC and noon with 12:00 UTC. -/
def calcSix : AstronomicalCalculator :=
  ⟨fun _ _ _ _ => some 6, fun _ _ _ _ => some 18, fun _ _ => some 12⟩

/-- Fixture: a calendar over the polar (all-none) calculator. -/
def cNone : AstronomicalCalendar := ⟨0, geoZero, calcNone⟩

/-- Fixture: a calendar over the constant 6:00 / 18:00 / 12:00 calculator. -/
def cSix : AstronomicalCalendar := ⟨0, geoZero, calcSix⟩

/-- Fixture: a calendar at longitude -74 degrees. -/
def cNeg74 : AstronomicalCalendar := ⟨0, geoNeg74, calcSix⟩

open AstronomicalCalendar

/-- Truncated remainders by twelve stay below twelve in absolute value. -/
theorem tmod_twelve_bound (a : ℤ) : (a.tmod 12).natAbs ≤ 11 := by
  cases a with
  | ofNat m =>
    have h : (Int.ofNat m).tmod 12 = ((m % 12 : ℕ) : ℤ) := rfl
    have h2 : m % 12 < 12 := Nat.mod_lt _ (by norm_num)
    rw [h]
    omega
  | negSucc m =>
    have h : (Int.negSucc m).tmod 12 = -((m.succ % 12 : ℕ) : ℤ) := rfl
    have h2 : m.succ % 12 < 12 := Nat.mod_lt _ (by norm_num)
    rw [h]
    omega

/-- Claim C9: setDate with a JavaScript number argument leaves the calendar
unchanged (the instanceof / typeof dispatch has no branch for numbers), while
PlainDate, Date and string arguments update the stored date. -/
theorem C9_setDate_number_noop (f : ℤ → String → ℤ) (g : String → ℤ)
    (c : AstronomicalCalendar) (n : ℚ) (d ms : ℤ) (s : String) :
    AstronomicalCalendar.setDate f g c (DateInput.num n) = c ∧
      (AstronomicalCalendar.setDate f g c (DateInput.plainDate d)).date = d ∧
      (AstronomicalCalendar.setDate f g c (DateInput.jsDate ms)).date =
        f ms c.geoLocation.timeZone ∧
      (AstronomicalCalendar.setDate f g c (DateInput.str s)).date = g s :=
  ⟨rfl, rfl, rfl, rfl⟩

/-- Claim C8: getTemporalHour defaults its bounds to sea-level sunrise and
sea-level sunset, returns the truncated twelfth of the nanosecond span for
non-null bounds, returns undefined when either bound is null, and twelve times
the returned duration differs from the full span by less than a second. -/
theorem C8_temporalHour (c : AstronomicalCalendar) (s e : Option ℤ) (a b : ℤ) :
    getTemporalHour c = getTemporalHour2 c.getSeaLevelSunrise c.getSeaLevelSunset ∧
      getTemporalHour2 none e = none ∧
      getTemporalHour2 s none = none ∧
      getTemporalHour2 (some a) (some b) = some ((b - a).tdiv 12) ∧
      (12 * ((b - a).tdiv 12) - (b - a)).natAbs < 1000000000 := by
  refine ⟨rfl, rfl, ?_, rfl, ?_⟩
  · cases s <;> rfl
  · have h := Int.tmod_add_tdiv (b - a) 12
    have h2 := tmod_twelve_bound (b - a)
    omega

/-- Claim C10: equals holds exactly for another AstronomicalCalendar with an
equal date, a structurally equal GeoLocation and the identical calculator
reference; every calendar equals itself, and calendars holding distinct
calculator instances are never equal. -/
theorem C10_equals_characterization (h : List GeoLocation) (c : CalendarRef) (o : JsValue) :
    (calendarEquals h c o = true ↔
        ∃ a, o = JsValue.calendar a ∧ c.dateR = a.dateR ∧
          geoAt h c.geoRef = geoAt h a.geoRef ∧ c.calcRef = a.calcRef) ∧
      calendarEquals h c (JsValue.calendar c) = true ∧
      (∀ a, c.calcRef ≠ a.calcRef → calendarEquals h c (JsValue.calendar a) = false) := by
  refine ⟨?_, by simp [calendarEquals], fun a hne => by simp [calendarEquals, hne]⟩
  cases o with
  | calendar a => simp [calendarEquals, and_assoc]
  | otherObject => simp [calendarEquals]

/-- Witness for C10 at a concrete input: two calendars differing only in their
calculator reference are not equal. -/
theorem C10_equals_witness :
    calendarEquals [] ⟨0, 0, 0⟩ (JsValue.calendar ⟨0, 0, 1⟩) = false :=
  (C10_equals_characterization [] ⟨0, 0, 0⟩ (JsValue.calendar ⟨0, 0, 0⟩)).2.2 ⟨0, 0, 1⟩
    (by decide)

/-- Claim C2 (amended): the rollover of getDateFromTime uses the
toward-zero truncation of longitude / 15 (JavaScript Math.trunc), not the
floor: the working UTC day is the adjusted date, decremented for a sunrise
with trunc(longitude / 15) + hours > 18, incremented for a sunset with the sum
below 6, decremented for a lower transit with the sum above 12, and unchanged
otherwise. -/
theorem C2_dateFromTime_rollover (c : AstronomicalCalendar) (t : ℚ) (ev : SolarEvent) :
    (dateFromTimeParts c t ev).1 =
      c.getAdjustedDate +
        (if ev = SolarEvent.SUNRISE ∧
            18 < ratTrunc (c.geoLocation.longitude / 15) + ratTrunc t then -1
         else if ev = SolarEvent.SUNSET ∧
            ratTrunc (c.geoLocation.longitude / 15) + ratTrunc t < 6 then 1
         else if ev = SolarEvent.MIDNIGHT ∧
            12 < ratTrunc (c.geoLocation.longitude / 15) + ratTrunc t then -1
         else 0) := by
  simp only [dateFromTimeParts, decomposeTime]
  split_ifs <;> ring

/-- Counterexample to C2 as stated: at longitude -74 the claim computes
localTimeHours with the floor, predicting no rollover for a sunrise at
fractional hour 23 (floor(-74 / 15) + 23 = 18, not above 18), but the code
truncates toward zero and decrements the working UTC day. -/
theorem C2_floor_counterexample :
    cNeg74.getAdjustedDate = 0 ∧
      (⌊((-74 : ℚ) / 15)⌋ + ratTrunc (23 : ℚ) = 18) ∧
      (dateFromTimeParts cNeg74 23 SolarEvent.SUNRISE).1 = -1 := by
  refine ⟨?_, ?_, ?_⟩
  · norm_num [getAdjustedDate, GeoLocation.getAntimeridianAdjustment, cNeg74, geoNeg74,
      HOUR_NANOS]
  · norm_num [ratTrunc]
  · norm_num [dateFromTimeParts, decomposeTime, ratTrunc, getAdjustedDate,
      GeoLocation.getAntimeridianAdjustment, cNeg74, geoNeg74, HOUR_NANOS]

/-- Claim C1 (amended): the NaN sentinel from the calculator propagates as an
absent value through getSunrise, getSunset, the offset-by-degrees queries and
the temporal hour, with no error; but a null direct sun transit does not
propagate through getSolarMidnight — the non-null assertion dereferences null
and getSolarMidnight raises a TypeError instead. -/
theorem C1_nan_propagation (c : AstronomicalCalendar) :
    (c.getUTCSunrise GEOMETRIC_ZENITH = none → c.getSunrise = none) ∧
      (c.getUTCSeaLevelSunrise GEOMETRIC_ZENITH = none → c.getSeaLevelSunrise = none) ∧
      (c.getUTCSunset GEOMETRIC_ZENITH = none → c.getSunset = none) ∧
      (∀ z, c.getUTCSunrise z = none → c.getSunriseOffsetByDegrees z = none) ∧
      (∀ z, c.getUTCSunset z = none → c.getSunsetOffsetByDegrees z = none) ∧
      (∀ x, getTemporalHour2 none x = none ∧ getTemporalHour2 x none = none) ∧
      (c.getSunTransitDirect = none →
        c.getSolarMidnight = Except.error JsError.typeError) := by
  refine ⟨fun h => ?_, fun h => ?_, fun h => ?_, fun z h => ?_, fun z h => ?_,
    fun x => ⟨rfl, by cases x <;> rfl⟩, fun h => ?_⟩
  · simp [getSunrise, h]
  · simp [getSeaLevelSunrise, h]
  · simp [getSunset, h]
  · simp [getSunriseOffsetByDegrees, h]
  · simp [getSunsetOffsetByDegrees, h]
  · simp [getSolarMidnight, h]

/-- Witness for C1 at the polar fixture: every query of the all-none
calculator propagates the absent value, and solar midnight raises. -/
theorem C1_nan_propagation_witness :
    cNone.getSunrise = none ∧ cNone.getSeaLevelSunrise = none ∧ cNone.getSunset = none ∧
      cNone.getSunriseOffsetByDegrees 96 = none ∧ cNone.getSunsetOffsetByDegrees 96 = none ∧
      getTemporalHour2 none (some 0) = none ∧
      cNone.getSolarMidnight = Except.error JsError.typeError := by
  obtain ⟨h1, h2, h3, h4, h5, h6, h7⟩ := C1_nan_propagation cNone
  exact ⟨h1 rfl, h2 rfl, h3 rfl, h4 96 rfl, h5 96 rfl, (h6 (some 0)).1, h7 rfl⟩

/-- Counterexample to C1 as stated: with the polar calculator the direct sun
transit is null, and getSolarMidnight throws a TypeError rather than
propagating the absent value. -/
theorem C1_solarMidnight_throws :
    cNone.getSunTransitDirect = none ∧
      cNone.getSolarMidnight = Except.error JsError.typeError ∧
      cNone.getSolarMidnight ≠ Except.ok none := by
  refine ⟨rfl, rfl, fun h => ?_⟩
  have h2 : (Except.error JsError.typeError : Except JsError (Option ℤ)) = Except.ok none := h
  exact Except.noConfusion h2

/-- Claim C3 (amended): getSunTransit throws IllegalArgumentException exactly
when the start bound is supplied without the end bound; with only the end
bound supplied no error is raised — the end argument is ignored and the direct
UTC-noon path answers; with both bounds the result is the start plus six
temporal hours of the pair. -/
theorem C3_sunTransit (c : AstronomicalCalendar) (s e : ℤ) (eo : Option ℤ) :
    c.getSunTransit (some s) none = Except.error JsError.illegalArgument ∧
      c.getSunTransit none eo = Except.ok c.getSunTransitDirect ∧
      c.getSunTransit (some s) (some e) =
        Except.ok (some (s + 6 * ((e - s).tdiv 12))) := by
  refine ⟨rfl, rfl, ?_⟩
  have hr : List.range 6 = [0, 1, 2, 3, 4, 5] := rfl
  simp only [getSunTransit, getTemporalHour2, Option.getD_some, hr, List.foldl]
  refine congrArg Except.ok (congrArg some ?_)
  ring

/-- Counterexample to C3 as stated: supplying only the end-of-day bound does
not throw — the call answers through the direct noon path. -/
theorem C3_only_end_does_not_throw :
    cSix.getSunTransit none (some 0) = Except.ok (some 43200000000000) ∧
      cSix.getSunTransit none (some 0) ≠ Except.error JsError.illegalArgument := by
  have hd : cSix.getSunTransitDirect = some 43200000000000 := by
    norm_num [getSunTransitDirect, getDateFromTime, dateFromTimeParts, decomposeTime,
      ratTrunc, getAdjustedDate, GeoLocation.getAntimeridianAdjustment, cSix, geoZero,
      calcSix, HOUR_NANOS, nanosPerDay, clampI]
  refine ⟨?_, fun h => ?_⟩
  · show Except.ok cSix.getSunTransitDirect = _
    rw [hd]
  · rw [show cSix.getSunTransit none (some 0) = Except.ok cSix.getSunTransitDirect from rfl,
      hd] at h
    exact Except.noConfusion h

/-- Claim C4 (the code defect it exposes): clone passes the original
GeoLocation by reference into the constructor, so original and clone share one
mutable GeoLocation; setting the longitude through the clone's reference
changes the longitude the original observes, contradicting the documented
independent deep copy. Evaluated at the Lakewood fixture. -/
theorem C4_clone_shares_geoLocation :
    (cloneRef ⟨0, 0, 0⟩).geoRef = (⟨0, 0, 0⟩ : CalendarRef).geoRef ∧
      observedLongitude [geoLakewood] ⟨0, 0, 0⟩ = -742094 / 10000 ∧
      observedLongitude (setLongitudeAt [geoLakewood] (cloneRef ⟨0, 0, 0⟩).geoRef 0)
        ⟨0, 0, 0⟩ = 0 := by
  refine ⟨rfl, rfl, rfl⟩

/-- Claim C5: getLocalMeanTime throws IllegalArgumentException exactly when
the hour argument is below 0 or at least 24, succeeds on the whole range
[0, 24), and at the prime-meridian fixture the hours 0 and 23.999999 produce
distinct timestamps while 24 and -0.01 throw. -/
theorem C5_localMeanTime (c : AstronomicalCalendar) (hours : ℚ) :
    (c.getLocalMeanTime hours = Except.error JsError.illegalArgument ↔
        (hours < 0 ∨ 24 ≤ hours)) ∧
      (0 ≤ hours → hours < 24 → ∃ z, c.getLocalMeanTime hours = Except.ok (some z)) ∧
      cNone.getLocalMeanTime 0 = Except.ok (some 0) ∧
      cNone.getLocalMeanTime (23999999 / 1000000) = Except.ok (some (-3600000)) ∧
      cNone.getLocalMeanTime 0 ≠ cNone.getLocalMeanTime (23999999 / 1000000) ∧
      cNone.getLocalMeanTime 24 = Except.error JsError.illegalArgument ∧
      cNone.getLocalMeanTime (-1 / 100) = Except.error JsError.illegalArgument := by
  have hz : cNone.getLocalMeanTime 0 = Except.ok (some 0) := by
    norm_num [getLocalMeanTime, getDateFromTime, dateFromTimeParts, decomposeTime,
      ratTrunc, getAdjustedDate, GeoLocation.getAntimeridianAdjustment,
      GeoLocation.getLocalMeanTimeOffset, cNone, geoZero, HOUR_NANOS, nanosPerDay, clampI]
    decide
  have hq : cNone.getLocalMeanTime (23999999 / 1000000) = Except.ok (some (-3600000)) := by
    norm_num [getLocalMeanTime, getDateFromTime, dateFromTimeParts, decomposeTime,
      ratTrunc, getAdjustedDate, GeoLocation.getAntimeridianAdjustment,
      GeoLocation.getLocalMeanTimeOffset, cNone, geoZero, HOUR_NANOS, nanosPerDay, clampI]
  refine ⟨?_, fun h0 h24 => ?_, hz, hq, ?_, ?_, ?_⟩
  · by_cases hc : hours < 0 ∨ 24 ≤ hours
    · simp [getLocalMeanTime, hc]
    · simp only [getLocalMeanTime, if_neg hc]
      constructor
      · intro h
        exact Except.noConfusion h
      · intro h
        exact absurd h hc
  · have hc : ¬(hours < 0 ∨ 24 ≤ hours) := by
      push_neg
      exact ⟨h0, h24⟩
    simp only [getLocalMeanTime, if_neg hc, getDateFromTime]
    exact ⟨_, rfl⟩
  · rw [hz, hq]
    intro h
    have h2 := Except.ok.inj h
    have h3 := Option.some.inj h2
    norm_num at h3
  · norm_num [getLocalMeanTime]
  · norm_num [getLocalMeanTime]

/-- Witness for C5 at a concrete in-range hour: 5 o'clock succeeds. -/
theorem C5_localMeanTime_witness :
    ∃ z, cSix.getLocalMeanTime 5 = Except.ok (some z) :=
  (C5_localMeanTime cSix 5).2.1 (by norm_num) (by norm_num)

/-- One scan step moves the sunrise-search degrees from the value at index k to
the value at index k + 1. -/
theorem riseDeg_step (m : ℤ) (k : ℕ) :
    (if 0 < m then riseDegAt m k + riseIncrement else riseDegAt m k - riseIncrement) =
      riseDegAt m (k + 1) := by
  by_cases h : 0 < m <;> simp only [riseDegAt, h, if_pos, if_neg, if_true, if_false] <;>
    push_cast <;> ring

/-- One scan step moves the sunset-search degrees from the value at index k to
the value at index k + 1. -/
theorem setDeg_step (m : ℤ) (k : ℕ) :
    (if 0 < m then setDegAt m k + setIncrement else setDegAt m k - setIncrement) =
      setDegAt m (k + 1) := by
  by_cases h : 0 < m <;> simp only [setDegAt, h, if_pos, if_neg, if_true, if_false] <;>
    push_cast <;> ring

/-- Characterization of the sunrise dip loop: a returned degrees value is the
value of the first scan index at which the while-condition fails, every
earlier index having satisfied it. -/
theorem dipLoopRise_char (c : AstronomicalCalendar) (m : ℤ) (d : ℚ) :
    ∀ fuel k,
      dipLoopRise c m (riseTarget c m) (riseProbeAt c m k) (riseDegAt m k) fuel =
          DipOutcome.val d →
        ∃ n, k ≤ n ∧ n < k + fuel ∧ d = riseDegAt m n ∧
          dipCondRise m (riseProbeAt c m n) (riseTarget c m) = Except.ok false ∧
          ∀ j, k ≤ j → j < n →
            dipCondRise m (riseProbeAt c m j) (riseTarget c m) = Except.ok true := by
  intro fuel
  induction fuel with
  | zero =>
    intro k h
    exact absurd h (by simp [dipLoopRise])
  | succ fuel ih =>
    intro k h
    rw [dipLoopRise] at h
    cases hcond : dipCondRise m (riseProbeAt c m k) (riseTarget c m) with
    | error e =>
      rw [hcond] at h
      exact absurd h (by simp)
    | ok b =>
      cases b with
      | false =>
        rw [hcond] at h
        simp only at h
        refine ⟨k, le_refl k, by omega, ?_, hcond, fun j hkj hjk => absurd (lt_of_le_of_lt hkj hjk) (lt_irrefl k)⟩
        exact (DipOutcome.val.inj h).symm
      | true =>
        rw [hcond] at h
        simp only [riseDeg_step] at h
        obtain ⟨n, hn1, hn2, hn3, hn4, hn5⟩ := ih (k + 1) h
        refine ⟨n, by omega, by omega, hn3, hn4, fun j hkj hjn => ?_⟩
        rcases Nat.eq_or_lt_of_le hkj with heq | hlt
        · exact heq ▸ hcond
        · exact hn5 j hlt hjn

/-- Characterization of the sunset dip loop. -/
theorem dipLoopSet_char (c : AstronomicalCalendar) (m : ℤ) (d : ℚ) :
    ∀ fuel k,
      dipLoopSet c m (setTarget c m) (setProbeAt c m k) (setDegAt m k) fuel =
          DipOutcome.val d →
        ∃ n, k ≤ n ∧ n < k + fuel ∧ d = setDegAt m n ∧
          dipCondSet m (setProbeAt c m n) (setTarget c m) = Except.ok false ∧
          ∀ j, k ≤ j → j < n →
            dipCondSet m (setProbeAt c m j) (setTarget c m) = Except.ok true := by
  intro fuel
  induction fuel with
  | zero =>
    intro k h
    exact absurd h (by simp [dipLoopSet])
  | succ fuel ih =>
    intro k h
    rw [dipLoopSet] at h
    cases hcond : dipCondSet m (setProbeAt c m k) (setTarget c m) with
    | error e =>
      rw [hcond] at h
      exact absurd h (by simp)
    | ok b =>
      cases b with
      | false =>
        rw [hcond] at h
        simp only at h
        refine ⟨k, le_refl k, by omega, ?_, hcond, fun j hkj hjk => absurd (lt_of_le_of_lt hkj hjk) (lt_irrefl k)⟩
        exact (DipOutcome.val.inj h).symm
      | true =>
        rw [hcond] at h
        simp only [setDeg_step] at h
        obtain ⟨n, hn1, hn2, hn3, hn4, hn5⟩ := ih (k + 1) h
        refine ⟨n, by omega, by omega, hn3, hn4, fun j hkj hjn => ?_⟩
        rcases Nat.eq_or_lt_of_le hkj with heq | hlt
        · exact heq ▸ hcond
        · exact hn5 j hlt hjn

/-- The scan starts at degrees zero. -/
theorem riseDegAt_zero (m : ℤ) : riseDegAt m 0 = 0 := by
  simp [riseDegAt]

/-- The sunset scan starts at degrees zero. -/
theorem setDegAt_zero (m : ℤ) : setDegAt m 0 = 0 := by
  simp [setDegAt]

/-- Claim C6: the dip searches are fixed-increment linear scans — a value
returned by getSunriseSolarDipFromOffset (respectively the sunset variant) is
n times 0.0001 degrees (respectively 0.001 degrees), signed by the sign of the
minutes argument, where n is the first scan index at which the probed event is
defined and has crossed the target time (sea-level sunrise minus minutes,
respectively sea-level sunset plus minutes), every earlier probe having been
null or not yet across. -/
theorem C6_dip_scan (c : AstronomicalCalendar) (m : ℤ) (fuel : ℕ) (d : ℚ) :
    (getSunriseSolarDipFromOffset c m fuel = DipOutcome.val d →
      ∃ n, n < fuel ∧ d = riseDegAt m n ∧
        dipCondRise m (riseProbeAt c m n) (riseTarget c m) = Except.ok false ∧
        ∀ j, j < n →
          dipCondRise m (riseProbeAt c m j) (riseTarget c m) = Except.ok true) ∧
    (getSunsetSolarDipFromOffset c m fuel = DipOutcome.val d →
      ∃ n, n < fuel ∧ d = setDegAt m n ∧
        dipCondSet m (setProbeAt c m n) (setTarget c m) = Except.ok false ∧
        ∀ j, j < n →
          dipCondSet m (setProbeAt c m j) (setTarget c m) = Except.ok true) := by
  constructor
  · intro h
    have h0 : dipLoopRise c m (riseTarget c m) (riseProbeAt c m 0) (riseDegAt m 0) fuel =
        DipOutcome.val d := by
      rw [riseDegAt_zero]
      exact h
    obtain ⟨n, _, hn2, hn3, hn4, hn5⟩ := dipLoopRise_char c m d fuel 0 h0
    exact ⟨n, by omega, hn3, hn4, fun j hj => hn5 j (Nat.zero_le j) hj⟩
  · intro h
    have h0 : dipLoopSet c m (setTarget c m) (setProbeAt c m 0) (setDegAt m 0) fuel =
        DipOutcome.val d := by
      rw [setDegAt_zero]
      exact h
    obtain ⟨n, _, hn2, hn3, hn4, hn5⟩ := dipLoopSet_char c m d fuel 0 h0
    exact ⟨n, by omega, hn3, hn4, fun j hj => hn5 j (Nat.zero_le j) hj⟩

/-- Witness for C6 at the constant calculator with minutes zero: both searches
return 0 in one step, and the characterization places it at scan index 0. -/
theorem C6_dip_scan_witness :
    (∃ n, n < 1 ∧ (0 : ℚ) = riseDegAt 0 n ∧
      dipCondRise 0 (riseProbeAt cSix 0 n) (riseTarget cSix 0) = Except.ok false ∧
      ∀ j, j < n →
        dipCondRise 0 (riseProbeAt cSix 0 j) (riseTarget cSix 0) = Except.ok true) ∧
    (∃ n, n < 1 ∧ (0 : ℚ) = setDegAt 0 n ∧
      dipCondSet 0 (setProbeAt cSix 0 n) (setTarget cSix 0) = Except.ok false ∧
      ∀ j, j < n →
        dipCondSet 0 (setProbeAt cSix 0 j) (setTarget cSix 0) = Except.ok true) := by
  have hrise : getSunriseSolarDipFromOffset cSix 0 1 = DipOutcome.val 0 := by
    simp [getSunriseSolarDipFromOffset, dipLoopRise, dipCondRise, getSeaLevelSunrise,
      getUTCSeaLevelSunrise, cSix, calcSix, getDateFromTime]
  have hset : getSunsetSolarDipFromOffset cSix 0 1 = DipOutcome.val 0 := by
    simp [getSunsetSolarDipFromOffset, dipLoopSet, dipCondSet, getSeaLevelSunset,
      getUTCSeaLevelSunset, cSix, calcSix, getDateFromTime]
  exact ⟨(C6_dip_scan cSix 0 1 0).1 hrise, (C6_dip_scan cSix 0 1 0).2 hset⟩

/-- With the polar all-none calculator every probe of the sunrise scan is
null, so the loop never leaves its continue branch. -/
theorem dipLoopRise_allNone (m : ℤ) :
    ∀ fuel degrees,
      dipLoopRise cNone m none none degrees fuel = DipOutcome.timeout := by
  intro fuel
  induction fuel with
  | zero => intro degrees; rfl
  | succ fuel ih =>
    intro degrees
    rw [dipLoopRise]
    exact ih _

/-- With the polar all-none calculator every probe of the sunset scan is
null. -/
theorem dipLoopSet_allNone (m : ℤ) :
    ∀ fuel degrees,
      dipLoopSet cNone m none none degrees fuel = DipOutcome.timeout := by
  intro fuel
  induction fuel with
  | zero => intro degrees; rfl
  | succ fuel ih =>
    intro degrees
    rw [dipLoopSet]
    exact ih _

/-- Counterexample to C7 as stated: at the polar fixture, where no queried
solar event exists on the day, neither dip search ever returns — no iteration
bound suffices (the loop body runs forever in the source). -/
theorem C7_dip_no_termination :
    (¬ ∃ fuel r, getSunriseSolarDipFromOffset cNone 1 fuel = r ∧ r ≠ DipOutcome.timeout) ∧
    (¬ ∃ fuel r, getSunsetSolarDipFromOffset cNone 1 fuel = r ∧ r ≠ DipOutcome.timeout) := by
  constructor
  · rintro ⟨fuel, r, hr, hne⟩
    rw [show getSunriseSolarDipFromOffset cNone 1 fuel =
        dipLoopRise cNone 1 none none 0 fuel from rfl, dipLoopRise_allNone] at hr
    exact hne hr.symm
  · rintro ⟨fuel, r, hr, hne⟩
    rw [show getSunsetSolarDipFromOffset cNone 1 fuel =
        dipLoopSet cNone 1 none none 0 fuel from rfl, dipLoopSet_allNone] at hr
    exact hne hr.symm

/-- The sunrise dip loop leaves the continue branch as soon as some scan index
in reach of the fuel has a failing while-condition. -/
theorem dipLoopRise_stops (c : AstronomicalCalendar) (m : ℤ) :
    ∀ fuel k,
      (∃ n, k ≤ n ∧ n < k + fuel ∧
        dipCondRise m (riseProbeAt c m n) (riseTarget c m) ≠ Except.ok true) →
      dipLoopRise c m (riseTarget c m) (riseProbeAt c m k) (riseDegAt m k) fuel ≠
        DipOutcome.timeout := by
  intro fuel
  induction fuel with
  | zero =>
    rintro k ⟨n, hn1, hn2, _⟩
    omega
  | succ fuel ih =>
    rintro k ⟨n, hn1, hn2, hn3⟩
    rw [dipLoopRise]
    cases hcond : dipCondRise m (riseProbeAt c m k) (riseTarget c m) with
    | error e => simp
    | ok b =>
      cases b with
      | false => simp
      | true =>
        simp only [riseDeg_step]
        have hne : n ≠ k := fun heq => hn3 (heq ▸ hcond)
        exact ih (k + 1) ⟨n, by omega, by omega, hn3⟩

/-- The sunset dip loop leaves the continue branch as soon as some scan index
in reach of the fuel has a failing while-condition. -/
theorem dipLoopSet_stops (c : AstronomicalCalendar) (m : ℤ) :
    ∀ fuel k,
      (∃ n, k ≤ n ∧ n < k + fuel ∧
        dipCondSet m (setProbeAt c m n) (setTarget c m) ≠ Except.ok true) →
      dipLoopSet c m (setTarget c m) (setProbeAt c m k) (setDegAt m k) fuel ≠
        DipOutcome.timeout := by
  intro fuel
  induction fuel with
  | zero =>
    rintro k ⟨n, hn1, hn2, _⟩
    omega
  | succ fuel ih =>
    rintro k ⟨n, hn1, hn2, hn3⟩
    rw [dipLoopSet]
    cases hcond : dipCondSet m (setProbeAt c m k) (setTarget c m) with
    | error e => simp
    | ok b =>
      cases b with
      | false => simp
      | true =>
        simp only [setDeg_step]
        have hne : n ≠ k := fun heq => hn3 (heq ▸ hcond)
        exact ih (k + 1) ⟨n, by omega, by omega, hn3⟩

/-- Claim C7 (amended): the dip searches terminate only conditionally — if
some scan index yields a defined probe whose while-condition fails, the loop
returns within that many iterations; with a calculator for which no probed
zenith has a defined event (deep polar conditions) the loop never returns. -/
theorem C7_dip_conditional_termination (c : AstronomicalCalendar) (m : ℤ) :
    ((∃ n, dipCondRise m (riseProbeAt c m n) (riseTarget c m) ≠ Except.ok true) →
      ∃ fuel, getSunriseSolarDipFromOffset c m fuel ≠ DipOutcome.timeout) ∧
    ((∃ n, dipCondSet m (setProbeAt c m n) (setTarget c m) ≠ Except.ok true) →
      ∃ fuel, getSunsetSolarDipFromOffset c m fuel ≠ DipOutcome.timeout) := by
  constructor
  · rintro ⟨n, hn⟩
    refine ⟨n + 1, ?_⟩
    have h := dipLoopRise_stops c m (n + 1) 0 ⟨n, Nat.zero_le n, by omega, hn⟩
    rw [riseDegAt_zero] at h
    exact h
  · rintro ⟨n, hn⟩
    refine ⟨n + 1, ?_⟩
    have h := dipLoopSet_stops c m (n + 1) 0 ⟨n, Nat.zero_le n, by omega, hn⟩
    rw [setDegAt_zero] at h
    exact h

/-- Witness for C7 at the constant calculator with minutes zero: the very
first probe already fails the while-condition, so both searches terminate. -/
theorem C7_dip_termination_witness :
    (∃ fuel, getSunriseSolarDipFromOffset cSix 0 fuel ≠ DipOutcome.timeout) ∧
    (∃ fuel, getSunsetSolarDipFromOffset cSix 0 fuel ≠ DipOutcome.timeout) := by
  refine ⟨(C7_dip_conditional_termination cSix 0).1 ⟨0, ?_⟩,
    (C7_dip_conditional_termination cSix 0).2 ⟨0, ?_⟩⟩
  · intro h
    have : dipCondRise 0 (riseProbeAt cSix 0 0) (riseTarget cSix 0) = Except.ok false := by
      simp [dipCondRise, riseProbeAt, getSeaLevelSunrise, getUTCSeaLevelSunrise, cSix,
        calcSix, getDateFromTime]
    rw [this] at h
    exact Bool.noConfusion (Except.ok.inj h)
  · intro h
    have : dipCondSet 0 (setProbeAt cSix 0 0) (setTarget cSix 0) = Except.ok false := by
      simp [dipCondSet, setProbeAt, getSeaLevelSunset, getUTCSeaLevelSunset, cSix,
        calcSix, getDateFromTime]
    rw [this] at h
    exact Bool.noConfusion (Except.ok.inj h)

end KosherZmanim
